import Mathlib

/-!
Shallow embedding of the ledger engine of budget-track-telegram.py
(class TelegramBudgetTracker): data model, mutating operations,
summary computation, and persistence behaviour, with theorems checking
the natural-language specification against it.

Modelling conventions:
- Python float amounts are modelled as exact rationals.
- Python datetime values (second precision, compared field-lexicographically
  after strptime) are a six-field structure with a lexicographic order.
- Python dicts (users, budgets, expenses_by_category) are insertion-ordered
  association lists: setting an existing key replaces its value in place,
  a new key is appended at the end, matching dict iteration order.
- save_data either succeeds or raises; an operation that raises returns no
  confirmation message, modelled by an Option result.
-/

namespace BudgetTrack

/-- Date-time with second precision, as produced by
datetime.now().strftime and re-parsed by datetime.strptime. -/
structure DateTime where
  year : Nat
  month : Nat
  day : Nat
  hour : Nat
  minute : Nat
  second : Nat
deriving DecidableEq

/-- Python datetime comparison: lexicographic on the six fields. -/
def dleq (a b : DateTime) : Bool :=
  if a.year ≠ b.year then decide (a.year < b.year)
  else if a.month ≠ b.month then decide (a.month < b.month)
  else if a.day ≠ b.day then decide (a.day < b.day)
  else if a.hour ≠ b.hour then decide (a.hour < b.hour)
  else if a.minute ≠ b.minute then decide (a.minute < b.minute)
  else decide (a.second ≤ b.second)

/-- Gregorian leap-year rule used by Python's datetime. -/
def isLeapYear (y : Nat) : Bool :=
  (y % 4 = 0 && y % 100 ≠ 0) || (y % 400 = 0)

/-- Number of days in a month, as in Python's calendar. -/
def daysInMonth (y m : Nat) : Nat :=
  if m = 2 then (if isLeapYear y then 29 else 28)
  else if m = 4 ∨ m = 6 ∨ m = 9 ∨ m = 11 then 30
  else 31

/-- Subtracting timedelta(days=1) from a datetime: the previous calendar
day, same time of day. -/
def predDay (d : DateTime) : DateTime :=
  if d.day > 1 then { d with day := d.day - 1 }
  else if d.month > 1 then
    { d with month := d.month - 1, day := daysInMonth d.year (d.month - 1) }
  else { d with year := d.year - 1, month := 12, day := 31 }

/-- A transaction record as built by add_transaction. -/
structure Transaction where
  id : Nat
  date : DateTime
  amount : ℚ
  category : String
  ty : String
  description : String
deriving DecidableEq

/-- A budget entry as stored by set_budget. -/
structure BudgetEntry where
  amount : ℚ
  set_date : DateTime
deriving DecidableEq

/-- A savings goal as built by add_savings_goal. -/
structure SavingsGoal where
  id : Nat
  name : String
  target_amount : ℚ
  current_amount : ℚ
  target_date : String
  created_date : DateTime
deriving DecidableEq

/-- Lookup in an insertion-ordered association list (Python dict read). -/
def assocGet {α : Type} : List (String × α) → String → Option α
  | [], _ => none
  | (k', v) :: rest, k => if k' = k then some v else assocGet rest k

/-- Lookup with a default (Python dict.get(k, d)). -/
def assocGetD {α : Type} (m : List (String × α)) (k : String) (d : α) : α :=
  (assocGet m k).getD d

/-- Assignment m[k] = v on an insertion-ordered association list (Python
dict write): replaces in place if the key exists, otherwise appends. -/
def assocSet {α : Type} : List (String × α) → String → α → List (String × α)
  | [], k, v => [(k, v)]
  | (k', v') :: rest, k, v =>
    if k' = k then (k, v) :: rest else (k', v') :: assocSet rest k v

/-- A per-user account: the value stored in data['users'][user_id]. -/
structure Account where
  transactions : List Transaction
  budgets : List (String × BudgetEntry)
  savings_goals : List SavingsGoal
  total_savings : ℚ
deriving DecidableEq

/-- The fresh account inserted by get_user_data for an unseen user id. -/
def emptyAccount : Account :=
  { transactions := [], budgets := [], savings_goals := [], total_savings := 0 }

/-- add_transaction at the account level: append a transaction with
id = count + 1 and timestamp now, and update total_savings according to
the transaction type. -/
def addTransaction (acct : Account) (now : DateTime) (amount : ℚ)
    (category ty desc : String) : Account :=
  let t : Transaction :=
    { id := acct.transactions.length + 1, date := now, amount := amount,
      category := category, ty := ty, description := desc }
  { acct with
    transactions := acct.transactions ++ [t],
    total_savings :=
      if ty = "income" then acct.total_savings + amount
      else if ty = "expense" then acct.total_savings - amount
      else acct.total_savings }

/-- set_budget at the account level: overwrite the budget entry for the
category. -/
def setBudget (acct : Account) (now : DateTime) (category : String)
    (amount : ℚ) : Account :=
  { acct with budgets := assocSet acct.budgets category { amount := amount, set_date := now } }

/-- add_savings_goal at the account level: append a goal with
id = count + 1 and current_amount = 0. -/
def addSavingsGoal (acct : Account) (now : DateTime) (name : String)
    (target : ℚ) (targetDate : String) : Account :=
  { acct with savings_goals := acct.savings_goals ++
      [{ id := acct.savings_goals.length + 1, name := name,
         target_amount := target, current_amount := 0,
         target_date := targetDate, created_date := now }] }

/-- A budget alert: the data rendered into the alert string
of get_financial_summary. -/
structure BudgetAlert where
  category : String
  spent : ℚ
  budget : ℚ
deriving DecidableEq

/-- The dictionary returned by get_financial_summary. -/
structure Summary where
  period : String
  total_income : ℚ
  total_expenses : ℚ
  net_savings : ℚ
  expenses_by_category : List (String × ℚ)
  budget_alerts : List BudgetAlert
  total_savings : ℚ
deriving DecidableEq

/-- Start and end dates of the requested period, from
get_financial_summary: current_month and last_month compute calendar
bounds from now; anything else falls to the all-time sentinel range
2000-01-01 .. 2100-01-01. -/
def periodRange (now : DateTime) (period : String) : DateTime × DateTime :=
  if period = "current_month" then
    (⟨now.year, now.month, 1, 0, 0, 0⟩,
     if now.month < 12 then predDay ⟨now.year, now.month + 1, 1, 0, 0, 0⟩
     else predDay ⟨now.year + 1, 1, 1, 0, 0, 0⟩)
  else if period = "last_month" then
    let lastMonth := if now.month > 1 then now.month - 1 else 12
    let year := if now.month > 1 then now.year else now.year - 1
    (⟨year, lastMonth, 1, 0, 0, 0⟩, predDay ⟨now.year, now.month, 1, 0, 0, 0⟩)
  else
    (⟨2000, 1, 1, 0, 0, 0⟩, ⟨2100, 1, 1, 0, 0, 0⟩)

/-- The list comprehension filtering transactions whose parsed date lies
in the inclusive range. -/
def periodTransactions (txs : List Transaction) (s e : DateTime) : List Transaction :=
  txs.filter (fun t => dleq s t.date && dleq t.date e)

/-- The expenses_by_category loop: fold over the period transactions,
accumulating expense amounts per category in an insertion-ordered dict. -/
def expensesByCategory (txs : List Transaction) : List (String × ℚ) :=
  txs.foldl
    (fun m t =>
      if t.ty = "expense" then assocSet m t.category (assocGetD m t.category 0 + t.amount)
      else m)
    []

/-- The budget-compliance loop: for each budget entry in dict order, emit
an alert when the period spending for its category strictly exceeds the
budget amount. -/
def budgetAlerts : List (String × BudgetEntry) → List (String × ℚ) → List BudgetAlert
  | [], _ => []
  | (c, b) :: rest, ebc =>
    let spent := assocGetD ebc c 0
    if spent > b.amount then { category := c, spent := spent, budget := b.amount } :: budgetAlerts rest ebc
    else budgetAlerts rest ebc

/-- get_financial_summary at the account level. -/
def getFinancialSummary (acct : Account) (now : DateTime) (period : String) : Summary :=
  let se := periodRange now period
  let pts := periodTransactions acct.transactions se.1 se.2
  let totalIncome := ((pts.filter (fun t => t.ty = "income")).map Transaction.amount).sum
  let totalExpenses := ((pts.filter (fun t => t.ty = "expense")).map Transaction.amount).sum
  let ebc := expensesByCategory pts
  { period := period,
    total_income := totalIncome,
    total_expenses := totalExpenses,
    net_savings := totalIncome - totalExpenses,
    expenses_by_category := ebc,
    budget_alerts := budgetAlerts acct.budgets ebc,
    total_savings := acct.total_savings }

/-- The slice user_data['transactions'][-limit:] for a non-negative limit:
Python's -0 is 0, so limit = 0 slices the whole list; a positive limit
takes the last limit elements. -/
def tailSlice (l : List Transaction) (limit : Nat) : List Transaction :=
  if limit = 0 then l else l.drop (l.length - limit)

/-- view_transactions at the account level: none models the
"No transactions found." branch; otherwise the transactions are rendered
in reversed slice order (most recent first). -/
def viewTransactions (acct : Account) (limit : Nat) : Option (List Transaction) :=
  let ts := tailSlice acct.transactions limit
  if ts.isEmpty then none else some ts.reverse

/-- The progress-percentage expression of view_savings_goals:
(current / target) * 100 when target > 0, else 0. -/
def goalProgress (g : SavingsGoal) : ℚ :=
  if g.target_amount > 0 then g.current_amount / g.target_amount * 100 else 0

/-- view_savings_goals at the account level: none models the
"No savings goals set." branch; otherwise each goal is rendered with its
derived progress percentage. -/
def viewSavingsGoals (acct : Account) : Option (List (SavingsGoal × ℚ)) :=
  let gs := acct.savings_goals
  if gs.isEmpty then none else some (gs.map (fun g => (g, goalProgress g)))

/-- The in-memory document: data['users'] as an insertion-ordered dict. -/
abbrev Doc := List (String × Account)

/-- get_user_data: fetch the account for the user id, inserting a fresh
empty account into the document first when the id is unseen. Returns the
(possibly extended) document together with the account. -/
def getUserData (doc : Doc) (uid : String) : Doc × Account :=
  match assocGet doc uid with
  | some a => (doc, a)
  | none => (doc ++ [(uid, emptyAccount)], emptyAccount)

/-- add_transaction at the document level. The account is mutated (and
the mutation visible in self.data) before save_data runs; save_data
either succeeds, after which the confirmation string is returned, or
raises, in which case no message is returned. saveOk = false models a
failing save. -/
def runAddTransaction (doc : Doc) (uid : String) (now : DateTime) (amount : ℚ)
    (category ty desc : String) (saveOk : Bool) : Doc × Option Unit :=
  let p := getUserData doc uid
  let doc1 := assocSet p.1 uid (addTransaction p.2 now amount category ty desc)
  (doc1, if saveOk then some () else none)

/-- set_budget at the document level, save modelled as in
runAddTransaction. -/
def runSetBudget (doc : Doc) (uid : String) (now : DateTime) (category : String)
    (amount : ℚ) (saveOk : Bool) : Doc × Option Unit :=
  let p := getUserData doc uid
  let doc1 := assocSet p.1 uid (setBudget p.2 now category amount)
  (doc1, if saveOk then some () else none)

/-- add_savings_goal at the document level, save modelled as in
runAddTransaction. -/
def runAddSavingsGoal (doc : Doc) (uid : String) (now : DateTime) (name : String)
    (target : ℚ) (targetDate : String) (saveOk : Bool) : Doc × Option Unit :=
  let p := getUserData doc uid
  let doc1 := assocSet p.1 uid (addSavingsGoal p.2 now name target targetDate)
  (doc1, if saveOk then some () else none)

/-- get_financial_summary at the document level: reads through
get_user_data (which may insert a fresh account) and never saves. -/
def runGetFinancialSummary (doc : Doc) (uid : String) (now : DateTime)
    (period : String) : Doc × Summary :=
  let p := getUserData doc uid
  (p.1, getFinancialSummary p.2 now period)

/-- view_transactions at the document level: reads through get_user_data
and never saves. -/
def runViewTransactions (doc : Doc) (uid : String) (limit : Nat) :
    Doc × Option (List Transaction) :=
  let p := getUserData doc uid
  (p.1, viewTransactions p.2 limit)

/-- view_savings_goals at the document level: reads through get_user_data
and never saves. -/
def runViewSavingsGoals (doc : Doc) (uid : String) :
    Doc × Option (List (SavingsGoal × ℚ)) :=
  let p := getUserData doc uid
  (p.1, viewSavingsGoals p.2)

/-- Which TelegramBudgetTracker methods invoke self.save_data():
transcribed from the method bodies; summaries and view methods do not
save. -/
def callsSaveData (method : String) : Bool :=
  method = "add_transaction" || method = "set_budget" || method = "add_savings_goal"

/-- A parsed JSON value, for modelling json.load results. -/
inductive JsonVal where
  | null : JsonVal
  | num : ℚ → JsonVal
  | str : String → JsonVal
  | arr : List JsonVal → JsonVal
  | obj : List (String × JsonVal) → JsonVal

/-- The outcome of reading the data file: missing, present but not valid
JSON (json.load raises JSONDecodeError), or parsed to a JSON value. -/
inductive FileState where
  | missing : FileState
  | unparsable : FileState
  | parsed : JsonVal → FileState

/-- The document produced by initialize_data: {'users': {}}. -/
def initialData : JsonVal := .obj [("users", .obj [])]

/-- load_data: a missing file or a json.load failure initializes the
empty document; any successfully parsed value is taken as self.data
unchanged. -/
def loadData : FileState → JsonVal
  | .missing => initialData
  | .unparsable => initialData
  | .parsed v => v

/-- Lookup in a JSON object field list, first match (dict semantics). -/
def jsonGet : List (String × JsonVal) → String → Option JsonVal
  | [], _ => none
  | (k', v) :: rest, k => if k' = k then some v else jsonGet rest k

/-- A well-formed ledger document at the top level: an object whose
key users maps to an object (the shape every accessor assumes). -/
def isWellFormedDoc : JsonVal → Bool
  | .obj fields =>
    match jsonGet fields ("users") with
    | some (.obj _) => true
    | _ => false
  | _ => false

/-- The arguments of one add_transaction call, for reasoning about call
sequences. -/
structure TxCall where
  date : DateTime
  amount : ℚ
  category : String
  ty : String
  description : String
deriving DecidableEq

/-- Replay a sequence of add_transaction calls on an account. -/
def runCalls (acct : Account) (calls : List TxCall) : Account :=
  calls.foldl (fun a c => addTransaction a c.date c.amount c.category c.ty c.description) acct

/-- A fixed clock instant used by concrete scenarios: 2025-10-12 12:00:00. -/
def dNow : DateTime := ⟨2025, 10, 12, 12, 0, 0⟩

/-- A timestamp in the current month of dNow. -/
def dOct5 : DateTime := ⟨2025, 10, 5, 10, 0, 0⟩

/-- A timestamp in the current month of dNow. -/
def dOct6 : DateTime := ⟨2025, 10, 6, 11, 0, 0⟩

/-- A timestamp in the current month of dNow. -/
def dOct7 : DateTime := ⟨2025, 10, 7, 12, 30, 0⟩

/-- A timestamp in the month before dNow. -/
def dSep15 : DateTime := ⟨2025, 9, 15, 9, 0, 0⟩

/-- A representable timestamp beyond the all-time sentinel upper bound. -/
def dFar : DateTime := ⟨2150, 1, 1, 0, 0, 0⟩

/-- Day d of October 2025 at 08:00:00. -/
def octDay (d : Nat) : DateTime := ⟨2025, 10, d, 8, 0, 0⟩

/-- The spec scenario account: income 1000 (Salary), expense 200 (Food),
expense 50 (Food), all in the current month of dNow, then budget
Food = 100. -/
def scenarioAccount : Account :=
  setBudget
    (addTransaction
      (addTransaction
        (addTransaction emptyAccount dOct5 1000 ("Salary") ("income") (""))
        dOct6 200 ("Food") ("expense") (""))
      dOct7 50 ("Food") ("expense") (""))
    dNow ("Food") 100

/-- An account whose only transaction is timestamped beyond the all-time
sentinel. -/
def farAccount : Account :=
  addTransaction emptyAccount dFar 100 ("Salary") ("income") ("")

/-- An account whose only transaction is timestamped in the month before
dNow. -/
def prevMonthAccount : Account :=
  addTransaction emptyAccount dSep15 100 ("Salary") ("income") ("")

/-- An account with no transactions and a negative budget for Food. -/
def negBudgetAccount : Account :=
  setBudget emptyAccount dNow ("Food") (-1)

/-- An account with a single recorded transaction. -/
def oneTxAccount : Account :=
  addTransaction emptyAccount dOct5 1000 ("Salary") ("income") ("")

/-- An account holding five recorded transactions. -/
def fiveTxAccount : Account :=
  addTransaction
    (addTransaction
      (addTransaction
        (addTransaction
          (addTransaction emptyAccount (octDay 1) 10 ("Food") ("expense") (""))
          (octDay 2) 20 ("Food") ("expense") (""))
        (octDay 3) 30 ("Food") ("expense") (""))
      (octDay 4) 40 ("Food") ("expense") (""))
    (octDay 5) 50 ("Food") ("expense") ("")

/-- A two-call sequence: income 1000 then expense 200. -/
def sampleCalls : List TxCall :=
  [⟨dOct5, 1000, ("Salary"), ("income"), ("")⟩,
   ⟨dOct6, 200, ("Food"), ("expense"), ("")⟩]

/-- A goal half way to its target. -/
def gHalf : SavingsGoal :=
  { id := 1, name := ("Car"), target_amount := 5000, current_amount := 2500,
    target_date := ("2025-12-31"), created_date := dNow }

/-- A goal with target_amount = 0. -/
def gZero : SavingsGoal :=
  { id := 2, name := ("Rainy day"), target_amount := 0, current_amount := 7,
    target_date := ("2026-01-01"), created_date := dNow }

/- ------------------------------------------------------------------ -/
/- Helper lemmas                                                      -/
/- ------------------------------------------------------------------ -/

lemma runCalls_total_savings (calls : List TxCall) :
    ∀ acct : Account, (∀ c ∈ calls, c.ty = "income" ∨ c.ty = "expense") →
    (runCalls acct calls).total_savings =
      acct.total_savings
        + ((calls.filter (fun c => c.ty = "income")).map TxCall.amount).sum
        - ((calls.filter (fun c => c.ty = "expense")).map TxCall.amount).sum := by
  induction calls with
  | nil => intro acct _; simp [runCalls]
  | cons c cs ih =>
    intro acct h
    have hc := h c (List.mem_cons_self c cs)
    have hrest : ∀ x ∈ cs, x.ty = "income" ∨ x.ty = "expense" :=
      fun x hx => h x (List.mem_cons_of_mem c hx)
    have hfold : runCalls acct (c :: cs) =
        runCalls (addTransaction acct c.date c.amount c.category c.ty c.description) cs := rfl
    rw [hfold, ih _ hrest]
    rcases hc with hinc | hexp
    · simp [addTransaction, hinc, List.filter_cons]
      ring
    · simp [addTransaction, hexp, List.filter_cons]
      ring

lemma tailSlice_reverse (l : List Transaction) (limit : Nat) (h : limit ≠ 0) :
    (tailSlice l limit).reverse = l.reverse.take limit := by
  unfold tailSlice
  rw [if_neg h, List.reverse_drop]
  rcases le_or_lt limit l.length with hle | hlt
  · have : l.length - (l.length - limit) = limit := by omega
    rw [this]
  · have h1 : l.length - limit = 0 := by omega
    rw [h1, Nat.sub_zero, List.take_of_length_le (by simp),
      List.take_of_length_le (by simp; omega)]

lemma tailSlice_eq_nil_iff (l : List Transaction) (limit : Nat) (h : limit ≠ 0) :
    tailSlice l limit = [] ↔ l = [] := by
  unfold tailSlice
  rw [if_neg h, List.drop_eq_nil_iff]
  constructor
  · intro hle
    have : l.length = 0 := by omega
    exact List.length_eq_zero.mp this
  · intro hnil; simp [hnil]

lemma budgetAlerts_eq_filter_map (budgets : List (String × BudgetEntry))
    (ebc : List (String × ℚ)) :
    budgetAlerts budgets ebc =
      (budgets.filter (fun cb => decide (assocGetD ebc cb.1 0 > cb.2.amount))).map
        (fun cb => { category := cb.1, spent := assocGetD ebc cb.1 0, budget := cb.2.amount }) := by
  induction budgets with
  | nil => rfl
  | cons cb rest ih =>
    rcases cb with ⟨c, b⟩
    rw [List.filter_cons]
    by_cases h : assocGetD ebc c 0 > b.amount
    · simp [budgetAlerts, h, ih]
    · simp [budgetAlerts, h, ih]

lemma budgetAlerts_nonneg_empty (budgets : List (String × BudgetEntry))
    (h : ∀ cb ∈ budgets, 0 ≤ cb.2.amount) :
    budgetAlerts budgets [] = [] := by
  induction budgets with
  | nil => rfl
  | cons cb rest ih =>
    have hcb := h cb (List.mem_cons_self cb rest)
    have hr : ∀ x ∈ rest, 0 ≤ x.2.amount := fun x hx => h x (List.mem_cons_of_mem cb hx)
    rcases cb with ⟨c, b⟩
    have hno : ¬ assocGetD ([] : List (String × ℚ)) c 0 > b.amount := by
      simp only [assocGetD, assocGet, Option.getD_none]
      exact not_lt.mpr hcb
    simp [budgetAlerts, hno, ih hr]

lemma assocGet_assocSet_ne {α : Type} (m : List (String × α)) (k k' : String) (v : α)
    (h : k' ≠ k) : assocGet (assocSet m k v) k' = assocGet m k' := by
  induction m with
  | nil => simp [assocSet, assocGet, Ne.symm h]
  | cons p rest ih =>
    rcases p with ⟨a, b⟩
    by_cases hak : a = k
    · subst hak
      simp [assocSet, assocGet, Ne.symm h]
    · simp only [assocSet, if_neg hak, assocGet]
      by_cases hak' : a = k'
      · simp [hak']
      · simp [hak', ih]

lemma assocGet_assocSet_self {α : Type} (m : List (String × α)) (k : String) (v : α) :
    assocGet (assocSet m k v) k = some v := by
  induction m with
  | nil => simp [assocSet, assocGet]
  | cons p rest ih =>
    rcases p with ⟨a, b⟩
    by_cases hak : a = k
    · simp [assocSet, hak, assocGet]
    · simp [assocSet, hak, assocGet, ih]

lemma assocGet_append_ne (doc : Doc) (uid uid' : String) (a : Account)
    (h : uid' ≠ uid) : assocGet (doc ++ [(uid, a)]) uid' = assocGet doc uid' := by
  induction doc with
  | nil => simp [assocGet, Ne.symm h]
  | cons p rest ih =>
    rcases p with ⟨k, v⟩
    by_cases hk : k = uid'
    · simp [assocGet, hk]
    · simp [assocGet, hk, ih]

lemma assocGet_getUserData_ne (doc : Doc) (uid uid' : String) (h : uid' ≠ uid) :
    assocGet (getUserData doc uid).1 uid' = assocGet doc uid' := by
  unfold getUserData
  cases hassoc : assocGet doc uid with
  | some a => rfl
  | none => exact assocGet_append_ne doc uid uid' emptyAccount h

lemma getUserData_fresh (doc : Doc) (uid : String) (h : assocGet doc uid = none) :
    getUserData doc uid = (doc ++ [(uid, emptyAccount)], emptyAccount) := by
  unfold getUserData
  rw [h]

/- ------------------------------------------------------------------ -/
/- Claim theorems                                                     -/
/- ------------------------------------------------------------------ -/

/-- C1: for every sequence of add_transaction calls of income or expense
type with non-negative amounts, starting from a fresh account, the
account's total_savings after the calls equals the sum of the income
amounts minus the sum of the expense amounts recorded so far (every
prefix of a sequence is itself such a sequence, so this holds after each
call). -/
theorem c1_total_savings_invariant (calls : List TxCall)
    (hty : ∀ c ∈ calls, c.ty = "income" ∨ c.ty = "expense")
    (_hnn : ∀ c ∈ calls, 0 ≤ c.amount) :
    (runCalls emptyAccount calls).total_savings =
      ((calls.filter (fun c => c.ty = "income")).map TxCall.amount).sum
        - ((calls.filter (fun c => c.ty = "expense")).map TxCall.amount).sum := by
  have h := runCalls_total_savings calls emptyAccount hty
  simpa [emptyAccount] using h

/-- Witness for C1: replaying income 1000 then expense 200 from a fresh
account leaves total_savings = 800. -/
theorem c1_total_savings_invariant_witness :
    (runCalls emptyAccount sampleCalls).total_savings = 800 := by
  rw [c1_total_savings_invariant sampleCalls (by decide) (by decide)]
  have h1 : ("expense" : String) ≠ "income" := by decide
  have h2 : ("income" : String) ≠ "expense" := by decide
  simp [sampleCalls, List.filter_cons, h1, h2]
  norm_num

/-- C3: the spec scenario — income 1000 (Salary), expense 200 (Food),
expense 50 (Food) in the current month, budget Food = 100 — yields a
current_month summary with total_income 1000, total_expenses 250,
net_savings 750, expenses_by_category mapping Food to 250 and exactly
one alert for Food with spent 250 against budget 100; and in general
the alert list is exactly the budget table filtered to categories whose
period spending strictly exceeds their budget, in table order. -/
theorem c3_summary_scenario_and_alerts :
    ((getFinancialSummary scenarioAccount dNow ("current_month")).total_income = 1000
      ∧ (getFinancialSummary scenarioAccount dNow ("current_month")).total_expenses = 250
      ∧ (getFinancialSummary scenarioAccount dNow ("current_month")).net_savings = 750
      ∧ (getFinancialSummary scenarioAccount dNow ("current_month")).expenses_by_category
          = [(("Food" : String), (250 : ℚ))]
      ∧ (getFinancialSummary scenarioAccount dNow ("current_month")).budget_alerts
          = [{ category := ("Food"), spent := 250, budget := 100 }])
    ∧ ∀ (budgets : List (String × BudgetEntry)) (ebc : List (String × ℚ)),
        budgetAlerts budgets ebc =
          (budgets.filter (fun cb => decide (assocGetD ebc cb.1 0 > cb.2.amount))).map
            (fun cb => { category := cb.1, spent := assocGetD ebc cb.1 0,
                         budget := cb.2.amount }) := by
  constructor
  · have h1 : ("expense" : String) ≠ "income" := by decide
    have h2 : ("income" : String) ≠ "expense" := by decide
    norm_num [getFinancialSummary, periodRange, periodTransactions, expensesByCategory,
      budgetAlerts, assocSet, assocGetD, assocGet, scenarioAccount, setBudget,
      addTransaction, emptyAccount, dleq, predDay, daysInMonth, isLeapYear,
      dNow, dOct5, dOct6, dOct7, List.filter_cons, h1, h2]
  · exact budgetAlerts_eq_filter_map

/-- C4 counterexample: a recorded income transaction timestamped
2150-01-01 — a representable timestamp — is excluded from the all_time
summary, whose sentinel range stops at 2100-01-01. -/
theorem c4_counterexample :
    ((farAccount.transactions.filter (fun t => t.ty = "income")).map Transaction.amount).sum
        = 100
    ∧ (getFinancialSummary farAccount dNow ("all_time")).total_income = 0 := by
  have h1 : ("all_time" : String) ≠ "current_month" := by decide
  have h2 : ("all_time" : String) ≠ "last_month" := by decide
  norm_num [getFinancialSummary, periodRange, periodTransactions, expensesByCategory,
    farAccount, addTransaction, emptyAccount, dleq, dFar, dNow,
    List.filter_cons, h1, h2]

/-- C4 amended: the all_time period uses the fixed sentinel range
2000-01-01 .. 2100-01-01 rather than an unbounded one; every recorded
transaction whose timestamp lies within that sentinel range is included
in the all_time summary — in particular a transaction timestamped in
the month before dNow is included in all_time while being excluded from
current_month — but representable timestamps outside the sentinel range
are excluded. -/
theorem c4_all_time_sentinel :
    (∀ (txs : List Transaction) (t : Transaction) (now : DateTime),
      t ∈ txs →
      dleq ⟨2000, 1, 1, 0, 0, 0⟩ t.date = true →
      dleq t.date ⟨2100, 1, 1, 0, 0, 0⟩ = true →
      t ∈ periodTransactions txs (periodRange now ("all_time")).1
            (periodRange now ("all_time")).2)
    ∧ (periodTransactions prevMonthAccount.transactions
        (periodRange dNow ("all_time")).1 (periodRange dNow ("all_time")).2)
        = prevMonthAccount.transactions
    ∧ (periodTransactions prevMonthAccount.transactions
        (periodRange dNow ("current_month")).1 (periodRange dNow ("current_month")).2)
        = [] := by
  have h1 : ("all_time" : String) ≠ "current_month" := by decide
  have h2 : ("all_time" : String) ≠ "last_month" := by decide
  refine ⟨?_, ?_, ?_⟩
  · intro txs t now hmem hlo hhi
    simp only [periodRange, if_neg h1, if_neg h2]
    unfold periodTransactions
    rw [List.mem_filter]
    exact ⟨hmem, by rw [hlo, hhi]; rfl⟩
  · norm_num [periodRange, periodTransactions, prevMonthAccount, addTransaction,
      emptyAccount, dleq, dSep15, dNow, List.filter_cons, h1, h2]
  · norm_num [periodRange, periodTransactions, prevMonthAccount, addTransaction,
      emptyAccount, dleq, predDay, daysInMonth, isLeapYear, dSep15, dNow,
      List.filter_cons]

/-- Witness for C4 amended: the in-sentinel 2025-09-15 transaction of
prevMonthAccount is included in the all_time filter. -/
theorem c4_all_time_sentinel_witness :
    (⟨1, dSep15, 100, ("Salary"), ("income"), ("")⟩ : Transaction) ∈
      periodTransactions [⟨1, dSep15, 100, ("Salary"), ("income"), ("")⟩]
        (periodRange dNow ("all_time")).1 (periodRange dNow ("all_time")).2 := by
  exact c4_all_time_sentinel.1 _ _ dNow (List.mem_singleton.mpr rfl) (by decide) (by decide)

/-- C5 counterexample: with a negative budget for Food and no
transactions at all, the current_month summary still emits a budget
alert (0 spent exceeds the negative budget), so the alert list is not
empty for every configuration of budgets. -/
theorem c5_counterexample :
    negBudgetAccount.transactions = []
    ∧ (getFinancialSummary negBudgetAccount dNow ("current_month")).budget_alerts
        = [{ category := ("Food"), spent := 0, budget := -1 }] := by
  norm_num [getFinancialSummary, periodRange, periodTransactions, expensesByCategory,
    budgetAlerts, assocSet, assocGetD, assocGet, negBudgetAccount, setBudget,
    emptyAccount, dNow, List.filter_cons]

/-- C5 amended: when no transaction falls in the requested period's
range, the summary reports zero total income, zero total expenses, zero
net savings and an empty category map regardless of which budgets are
set; and the alert list is empty provided every configured budget
amount is non-negative. -/
theorem c5_empty_period_summary (acct : Account) (now : DateTime) (period : String)
    (hempty : periodTransactions acct.transactions (periodRange now period).1
        (periodRange now period).2 = []) :
    (getFinancialSummary acct now period).total_income = 0
    ∧ (getFinancialSummary acct now period).total_expenses = 0
    ∧ (getFinancialSummary acct now period).net_savings = 0
    ∧ (getFinancialSummary acct now period).expenses_by_category = []
    ∧ ((∀ cb ∈ acct.budgets, 0 ≤ cb.2.amount) →
        (getFinancialSummary acct now period).budget_alerts = []) := by
  simp only [getFinancialSummary, hempty]
  refine ⟨rfl, rfl, by norm_num, rfl, fun hb => ?_⟩
  simpa [expensesByCategory] using budgetAlerts_nonneg_empty acct.budgets hb

/-- Witness for C5 amended: an account with a non-negative Food budget
and no transactions yields the all-zero, alert-free current_month
summary. -/
theorem c5_empty_period_summary_witness :
    (getFinancialSummary (setBudget emptyAccount dNow ("Food") 100) dNow
        ("current_month")).budget_alerts = []
    ∧ (getFinancialSummary (setBudget emptyAccount dNow ("Food") 100) dNow
        ("current_month")).total_income = 0 := by
  have h := c5_empty_period_summary (setBudget emptyAccount dNow ("Food") 100) dNow
    ("current_month") (by rfl)
  refine ⟨h.2.2.2.2 ?_, h.1⟩
  intro cb hcb
  simp [setBudget, emptyAccount, assocSet] at hcb
  rw [hcb]
  norm_num

/-- C6: for every account and every positive limit, view_transactions
renders the last limit recorded transactions most recent first, that is
the first limit entries of the reversed log, and renders the
no-transactions branch exactly when the account has no transactions. -/
theorem c6_view_transactions_recent (acct : Account) (limit : Nat) (h : 0 < limit) :
    viewTransactions acct limit =
      if acct.transactions.isEmpty then none
      else some (acct.transactions.reverse.take limit) := by
  unfold viewTransactions
  rcases hl : acct.transactions with _ | ⟨t, ts⟩
  · simp [tailSlice]
  · have hne : tailSlice (t :: ts) limit ≠ [] := by
      rw [Ne, tailSlice_eq_nil_iff _ _ (Nat.pos_iff_ne_zero.mp h)]
      simp
    simp only [List.isEmpty_cons, if_neg]
    rw [if_neg (by simpa [List.isEmpty_iff] using hne)]
    rw [tailSlice_reverse _ _ (Nat.pos_iff_ne_zero.mp h)]
    simp

/-- Witness for C6: after five recorded transactions, limit 2 yields the
two most recent transactions, most recent first. -/
theorem c6_view_transactions_recent_witness :
    viewTransactions fiveTxAccount 2 =
      some [⟨5, octDay 5, 50, ("Food"), ("expense"), ("")⟩,
            ⟨4, octDay 4, 40, ("Food"), ("expense"), ("")⟩] := by
  rw [c6_view_transactions_recent fiveTxAccount 2 (by decide)]
  decide

/-- C8: the progress percentage of a savings goal is
current_amount / target_amount * 100 when the target is positive, is 0
when the target is 0 (no division-by-zero error), and more generally the
division branch is not taken whenever the target is not positive; and
view_savings_goals renders each goal with exactly this derived
percentage. -/
theorem c8_goal_progress :
    (∀ g : SavingsGoal,
      (0 < g.target_amount → goalProgress g = g.current_amount / g.target_amount * 100)
      ∧ (g.target_amount = 0 → goalProgress g = 0)
      ∧ (¬ 0 < g.target_amount → goalProgress g = 0))
    ∧ ∀ acct : Account, acct.savings_goals ≠ [] →
        viewSavingsGoals acct =
          some (acct.savings_goals.map (fun g => (g, goalProgress g))) := by
  constructor
  · intro g
    refine ⟨fun h => ?_, fun h => ?_, fun h => ?_⟩
    · unfold goalProgress; rw [if_pos h]
    · unfold goalProgress; rw [if_neg (by rw [h]; exact lt_irrefl 0)]
    · unfold goalProgress; rw [if_neg h]
  · intro acct h
    unfold viewSavingsGoals
    rw [if_neg (by simpa [List.isEmpty_iff] using h)]

/-- Witness for C8: a 2500-of-5000 goal reports 50 percent and a goal
with zero target reports 0 percent. -/
theorem c8_goal_progress_witness :
    goalProgress gHalf = 50 ∧ goalProgress gZero = 0 := by
  constructor
  · rw [(c8_goal_progress.1 gHalf).1 (by decide)]
    norm_num [gHalf]
  · exact (c8_goal_progress.1 gZero).2.1 rfl

/-- C9: view_transactions with limit = 0 slices the whole log, so a
non-empty account yields all of its transactions (most recent first),
and only an account with no transactions at all reaches the
no-transactions branch. -/
theorem c9_limit_zero_yields_all (acct : Account) :
    (acct.transactions ≠ [] →
      viewTransactions acct 0 = some acct.transactions.reverse)
    ∧ (viewTransactions acct 0 = none ↔ acct.transactions = []) := by
  rcases hl : acct.transactions with _ | ⟨t, ts⟩
  · constructor
    · intro h; exact absurd rfl h
    · simp [viewTransactions, tailSlice, hl]
  · constructor
    · intro _; simp [viewTransactions, tailSlice, hl]
    · simp [viewTransactions, tailSlice, hl]

/-- Witness for C9: an account holding one transaction, viewed with
limit 0, yields that transaction rather than nothing. -/
theorem c9_limit_zero_yields_all_witness :
    viewTransactions oneTxAccount 0 =
      some [⟨1, dOct5, 1000, ("Salary"), ("income"), ("")⟩] := by
  rw [(c9_limit_zero_yields_all oneTxAccount).1 (by decide)]
  decide

/-- C7 counterexample: the empty JSON array parses successfully, is not
a well-formed ledger document, yet load_data keeps it as-is instead of
reinitializing, so not every malformed persisted content is healed. -/
theorem c7_counterexample :
    isWellFormedDoc (JsonVal.arr []) = false
    ∧ loadData (FileState.parsed (JsonVal.arr [])) ≠ initialData := by
  refine ⟨rfl, fun h => ?_⟩
  exact JsonVal.noConfusion h

/-- C7 amended: load_data returns the freshly initialized empty document
exactly when the file is missing or its content fails to parse as JSON;
content that parses is kept verbatim, well-formed or not. -/
theorem c7_load_self_healing :
    loadData FileState.missing = initialData
    ∧ loadData FileState.unparsable = initialData
    ∧ ∀ v, loadData (FileState.parsed v) = v :=
  ⟨rfl, rfl, fun _ => rfl⟩

/-- C2 counterexample: starting from the empty document, an
add_transaction call whose save fails returns no confirmation, yet the
in-memory document is no longer the prior (empty) document — the
mutation survives the failed save, refuting the all-or-nothing claim. -/
theorem c2_counterexample :
    (runAddTransaction [] ("u1") dNow 5 ("Food") ("expense") ("") false).2 = none
    ∧ (runAddTransaction [] ("u1") dNow 5 ("Food") ("expense") ("") false).1 ≠ [] := by
  constructor
  · rfl
  · simp [runAddTransaction, getUserData, assocGet, assocSet]

/-- C2 amended: when the persistence save fails, each mutating operation
(add_transaction, set_budget, add_savings_goal) propagates the failure
and does not return its confirmation message, but the in-memory
document already holds the mutation — it is exactly the document a
successful call would leave — because the state is mutated before
save_data runs and the save truncates the file in place rather than
writing all-or-nothing. -/
theorem c2_save_failure_behaviour :
    ∀ (doc : Doc) (uid : String) (now : DateTime) (amount target : ℚ)
      (category ty desc name tdate : String),
      ((runAddTransaction doc uid now amount category ty desc false).2 = none
        ∧ (runAddTransaction doc uid now amount category ty desc false).1
            = (runAddTransaction doc uid now amount category ty desc true).1
        ∧ (runAddTransaction doc uid now amount category ty desc true).2 = some ())
      ∧ ((runSetBudget doc uid now category amount false).2 = none
        ∧ (runSetBudget doc uid now category amount false).1
            = (runSetBudget doc uid now category amount true).1
        ∧ (runSetBudget doc uid now category amount true).2 = some ())
      ∧ ((runAddSavingsGoal doc uid now name target tdate false).2 = none
        ∧ (runAddSavingsGoal doc uid now name target tdate false).1
            = (runAddSavingsGoal doc uid now name target tdate true).1
        ∧ (runAddSavingsGoal doc uid now name target tdate true).2 = some ()) :=
  fun _ _ _ _ _ _ _ _ _ _ =>
    ⟨⟨rfl, rfl, rfl⟩, ⟨rfl, rfl, rfl⟩, ⟨rfl, rfl, rfl⟩⟩

/-- C10: calling any engine operation — the read-only summary and view
operations included — with an unseen user id appends a fresh empty
account (no transactions, no budgets, no goals, zero total_savings) to
the in-memory document; the read-only operations never invoke
save_data; and no operation changes the stored account of any other
user id. -/
theorem c10_get_user_data_effects (doc : Doc) (uid uid' : String) (now : DateTime)
    (period : String) (limit : Nat) (amount target : ℚ)
    (category ty desc name tdate : String) (saveOk : Bool)
    (hnew : assocGet doc uid = none) (hne : uid' ≠ uid) :
    (runGetFinancialSummary doc uid now period).1 = doc ++ [(uid, emptyAccount)]
    ∧ (runViewTransactions doc uid limit).1 = doc ++ [(uid, emptyAccount)]
    ∧ (runViewSavingsGoals doc uid).1 = doc ++ [(uid, emptyAccount)]
    ∧ emptyAccount =
        { transactions := [], budgets := [], savings_goals := [], total_savings := 0 }
    ∧ callsSaveData ("get_financial_summary") = false
    ∧ callsSaveData ("view_transactions") = false
    ∧ callsSaveData ("view_savings_goals") = false
    ∧ assocGet (runAddTransaction doc uid now amount category ty desc saveOk).1 uid'
        = assocGet doc uid'
    ∧ assocGet (runSetBudget doc uid now category amount saveOk).1 uid'
        = assocGet doc uid'
    ∧ assocGet (runAddSavingsGoal doc uid now name target tdate saveOk).1 uid'
        = assocGet doc uid'
    ∧ assocGet (runGetFinancialSummary doc uid now period).1 uid' = assocGet doc uid'
    ∧ assocGet (runViewTransactions doc uid limit).1 uid' = assocGet doc uid'
    ∧ assocGet (runViewSavingsGoals doc uid).1 uid' = assocGet doc uid'
    ∧ assocGet (runAddTransaction doc uid now amount category ty desc saveOk).1 uid
        = some (addTransaction emptyAccount now amount category ty desc)
    ∧ assocGet (runSetBudget doc uid now category amount saveOk).1 uid
        = some (setBudget emptyAccount now category amount)
    ∧ assocGet (runAddSavingsGoal doc uid now name target tdate saveOk).1 uid
        = some (addSavingsGoal emptyAccount now name target tdate) := by
  have hfresh := getUserData_fresh doc uid hnew
  have hread : (getUserData doc uid).1 = doc ++ [(uid, emptyAccount)] := by
    rw [hfresh]
  have hframe : assocGet (getUserData doc uid).1 uid' = assocGet doc uid' :=
    assocGet_getUserData_ne doc uid uid' hne
  refine ⟨hread, hread, hread, rfl, rfl, rfl, rfl, ?_, ?_, ?_, hframe, hframe, hframe,
    ?_, ?_, ?_⟩
  · show assocGet (assocSet (getUserData doc uid).1 uid _) uid' = assocGet doc uid'
    rw [assocGet_assocSet_ne _ _ _ _ hne, hframe]
  · show assocGet (assocSet (getUserData doc uid).1 uid _) uid' = assocGet doc uid'
    rw [assocGet_assocSet_ne _ _ _ _ hne, hframe]
  · show assocGet (assocSet (getUserData doc uid).1 uid _) uid' = assocGet doc uid'
    rw [assocGet_assocSet_ne _ _ _ _ hne, hframe]
  · simp only [runAddTransaction, hfresh, assocGet_assocSet_self]
  · simp only [runSetBudget, hfresh, assocGet_assocSet_self]
  · simp only [runAddSavingsGoal, hfresh, assocGet_assocSet_self]

/-- Witness for C10: on the empty document, a summary call for u1
inserts exactly the fresh empty account for u1, and an add_transaction
call for u1 leaves u2 unmapped. -/
theorem c10_get_user_data_effects_witness :
    (runGetFinancialSummary [] ("u1") dNow ("current_month")).1
        = [(("u1" : String), emptyAccount)]
    ∧ assocGet (runAddTransaction [] ("u1") dNow 5 ("Food") ("expense") ("") true).1
        ("u2") = none := by
  have h := c10_get_user_data_effects [] ("u1") ("u2") dNow ("current_month") 10 5 5
    ("Food") ("expense") ("") ("Car") ("2026-01-01") true rfl (by decide)
  refine ⟨?_, ?_⟩
  · rw [h.1]
    rfl
  · rw [h.2.2.2.2.2.2.2.1]
    rfl

end BudgetTrack
